import Mathlib

/-!
Shallow embedding of the `uv` event-loop reactor (src/uv/loop.py,
src/uv/handles/pipe.py, src/uv/handles/tcp.py).

Native backend calls (`lib.uv_*`) are modelled as explicit parameters
supplying the status codes and values the backend would report; Python
exceptions are modelled as `Except`/explicit outcome values; object
attribute mutation is modelled as explicit state passing.
-/

namespace UV

/-- Status codes of the backend (`error.StatusCodes`, whose source file is
not part of this repository snapshot). `SUCCESS` is 0; `ENOBUFS` is the
negative buffer-too-small status; only its distinctness from `SUCCESS`
matters to the code modelled here. -/
def StatusCodes.SUCCESS : Int := 0

/-- The backend's buffer-too-small status code (negative errno value). -/
def StatusCodes.ENOBUFS : Int := -105

/-- Faults raised by the Python layer: `uv.ClosedLoopError`,
`uv.ClosedHandleError` and `uv.UVError(code)`. -/
inductive Fault where
  | closedLoop
  | closedHandle
  | uvError (code : Int)
deriving DecidableEq, Repr

/-- A `uv_buf_t`: base pointer (`none` models `ffi.NULL`, otherwise the
bytes reachable from the base) and length. -/
structure UVBuf where
  base : Option (List Nat)
  len : Nat
deriving DecidableEq, Repr

/-- `library.uv_buffer_set(uv_buf, base, length)`: overwrites the buffer
descriptor with the given base and length. -/
def uv_buffer_set (_ : UVBuf) (base : Option (List Nat)) (len : Nat) : UVBuf :=
  ⟨base, len⟩

/-- `ffi.buffer(c_base, length)`: the first `length` bytes at `c_base`. -/
def ffiBuffer (data : List Nat) (len : Nat) : List Nat :=
  data.take len

/-- State of `DefaultAllocator` (src/uv/loop.py lines 101-117):
a fixed buffer size, the in-use flag, and the contents of the single
preallocated C buffer. -/
structure DefaultAllocator where
  buffer_size : Nat
  buffer_in_use : Bool
  c_buffer : List Nat
deriving DecidableEq, Repr

/-- `DefaultAllocator.allocate` (src/uv/loop.py lines 107-112): if the
single buffer is in use, hand the backend a NULL/zero-length buffer,
otherwise hand it the full fixed-size buffer; in either case mark the
buffer in use afterwards. -/
def DefaultAllocator.allocate (a : DefaultAllocator) (uv_buf : UVBuf) :
    DefaultAllocator × UVBuf :=
  let uv_buf :=
    if a.buffer_in_use then uv_buffer_set uv_buf none 0
    else uv_buffer_set uv_buf (some a.c_buffer) a.buffer_size
  ({ a with buffer_in_use := true }, uv_buf)

/-- `DefaultAllocator.finalize` (src/uv/loop.py lines 114-117): clear the
in-use flag; return `length` bytes read from the buffer base when
`length > 0`, else the empty byte string. -/
def DefaultAllocator.finalize (a : DefaultAllocator) (length : Int)
    (uv_buf : UVBuf) : DefaultAllocator × List Nat :=
  let a := { a with buffer_in_use := false }
  let c_base := uv_buf.base.getD []
  (a, if length > 0 then ffiBuffer c_base length.toNat else [])

/-- Values the native backend would report to the Loop methods:
`uv_loop_alive`, `uv_now`, `uv_backend_fd`, `uv_backend_timeout`,
`uv_run`, and `uv_loop_close`. -/
structure Backend where
  loopAlive : Bool
  nowValue : Nat
  backendFd : Int
  backendTimeout : Int
  runResult : Bool
  loopCloseCode : Int
deriving DecidableEq, Repr

/-- Python-visible state of a `Loop` (src/uv/loop.py lines 129-348):
the `closed` flag, membership of this loop in the process-wide
`Loop._loops` registry, whether this loop is the thread-local current
loop, whether the backend reference `uv_loop` is still held, the
backend's stop flag (set by `uv_stop`), and the last exception recorded
by `handle_exception` (`exc_type`/`exc_value`/`exc_traceback`, collapsed
to one identifier). -/
structure LoopState where
  closed : Bool
  inRegistry : Bool
  isCurrent : Bool
  uvLoopPresent : Bool
  stopRequested : Bool
  excInfo : Option Nat
deriving DecidableEq, Repr

/-- `Loop.alive` (src/uv/loop.py lines 285-288): returns `False` on a
closed loop, otherwise the backend's `uv_loop_alive` result. -/
def Loop.alive (b : Backend) (s : LoopState) : Except Fault Bool :=
  if s.closed then .ok false else .ok b.loopAlive

/-- `Loop.now` (src/uv/loop.py lines 290-293): raises `ClosedLoopError`
on a closed loop, otherwise returns `uv_now`. -/
def Loop.now (b : Backend) (s : LoopState) : Except Fault Nat :=
  if s.closed then .error .closedLoop else .ok b.nowValue

/-- `Loop.fileno` (src/uv/loop.py lines 295-297): raises
`ClosedLoopError` on a closed loop, otherwise returns `uv_backend_fd`. -/
def Loop.fileno (b : Backend) (s : LoopState) : Except Fault Int :=
  if s.closed then .error .closedLoop else .ok b.backendFd

/-- `Loop.make_current` (src/uv/loop.py lines 299-300): installs this
loop as the thread-local current loop. -/
def Loop.make_current (s : LoopState) : LoopState :=
  { s with isCurrent := true }

/-- `Loop.update_time` (src/uv/loop.py lines 302-304): raises
`ClosedLoopError` on a closed loop, otherwise calls `uv_update_time`. -/
def Loop.update_time (s : LoopState) : Except Fault Unit :=
  if s.closed then .error .closedLoop else .ok ()

/-- `Loop.get_timeout` (src/uv/loop.py lines 306-308): raises
`ClosedLoopError` on a closed loop, otherwise returns
`uv_backend_timeout`. -/
def Loop.get_timeout (b : Backend) (s : LoopState) : Except Fault Int :=
  if s.closed then .error .closedLoop else .ok b.backendTimeout

/-- `Loop.run` (src/uv/loop.py lines 310-319): raises `ClosedLoopError`
on a closed loop; otherwise makes this loop current, runs the backend and
returns its boolean result. -/
def Loop.run (b : Backend) (s : LoopState) : Except Fault (Bool × LoopState) :=
  if s.closed then .error .closedLoop
  else .ok (b.runResult, Loop.make_current s)

/-- `Loop.stop` (src/uv/loop.py lines 321-323): returns silently on a
closed loop; otherwise asks the backend to stop (`uv_stop`). -/
def Loop.stop (s : LoopState) : Except Fault LoopState :=
  if s.closed then .ok s
  else .ok { s with stopRequested := true }

/-- `Loop.close` (src/uv/loop.py lines 325-332): returns silently when
already closed; raises `UVError` when the backend rejects the close;
otherwise drops the backend reference, sets `closed`, removes the loop
from the registry and clears the thread-local current loop if it was
this one. -/
def Loop.close (b : Backend) (s : LoopState) : Except Fault LoopState :=
  if s.closed then .ok s
  else if b.loopCloseCode < 0 then .error (.uvError b.loopCloseCode)
  else .ok { s with
    uvLoopPresent := false
    closed := true
    inRegistry := false
    isCurrent := false }

/-- Outcome of a call on the fault-handling path: either the call
returns normally or the process terminates via `sys.exit(code)`. -/
inductive ExcOutcome where
  | normal
  | exit (code : Nat)
deriving DecidableEq, Repr

/-- Result of running a dispatch-side callback: the outward outcome,
the resulting loop state, whether the excepthook was invoked, and
whether the critical-error diagnostics were emitted. -/
structure DispatchResult where
  outcome : ExcOutcome
  state : LoopState
  hookInvoked : Bool
  diagnostics : Bool
deriving DecidableEq, Repr

/-- `Loop.handle_exception` (src/uv/loop.py lines 337-348): records the
current exception into `exc_type`/`exc_value`/`exc_traceback`, then
invokes the excepthook. If the excepthook raises (`hookRaises`), it
prints best-effort diagnostics (which themselves may fault,
`printRaises`) and, in a `finally:` block, terminates the process via
`sys.exit(1)`; otherwise it returns normally. -/
def Loop.handle_exception (hookRaises printRaises : Bool) (exc : Nat)
    (s : LoopState) : DispatchResult :=
  let s := { s with excInfo := some exc }
  if hookRaises then
    { outcome := .exit 1, state := s, hookInvoked := true,
      diagnostics := !printRaises }
  else
    { outcome := .normal, state := s, hookInvoked := true,
      diagnostics := false }

/-- Result of the native allocation callback: the buffer handed to the
backend, whether the excepthook was invoked, and whether a fault escaped
across the native boundary. -/
structure AllocCbResult where
  buf : UVBuf
  hookInvoked : Bool
  propagated : Bool
deriving DecidableEq, Repr

/-- `uv_alloc_cb` (src/uv/loop.py lines 120-126): calls the loop's
allocator; if the allocator raises (modelled by `allocResult` being
`.error`), the bare `except:` swallows the fault and hands the backend a
NULL/zero-length buffer. No path invokes the excepthook or lets a fault
escape. -/
def uv_alloc_cb (allocResult : Except Nat UVBuf) : AllocCbResult :=
  match allocResult with
  | .ok buf => { buf := buf, hookInvoked := false, propagated := false }
  | .error _ =>
    { buf := ⟨none, 0⟩, hookInvoked := false, propagated := false }

/-- The operations of `Loop` defined in src/uv/loop.py, used to state
state-preservation invariants uniformly. -/
inductive LoopOp where
  | alive
  | now
  | fileno
  | makeCurrent
  | updateTime
  | getTimeout
  | run
  | stop
  | close
  | closeAllHandles
  | handleException (exc : Nat) (hookRaises printRaises : Bool)
deriving DecidableEq, Repr

/-- The loop state after performing one `Loop` operation, whether it
returns normally or raises (a raise in src/uv/loop.py happens before any
attribute mutation, so the state is unchanged on the error paths).
`close_all_handles` only calls `close` on handles; it touches none of the
loop's own attributes. -/
def Loop.stepState (b : Backend) (op : LoopOp) (s : LoopState) : LoopState :=
  match op with
  | .alive => s
  | .now => s
  | .fileno => s
  | .makeCurrent => Loop.make_current s
  | .updateTime => s
  | .getTimeout => s
  | .run =>
    match Loop.run b s with
    | .ok (_, s') => s'
    | .error _ => s
  | .stop =>
    match Loop.stop s with
    | .ok s' => s'
    | .error _ => s
  | .close =>
    match Loop.close b s with
    | .ok s' => s'
    | .error _ => s
  | .closeAllHandles => s
  | .handleException exc hr pr => (Loop.handle_exception hr pr exc s).state

/-- A backend name query (`uv_pipe_getsockname` / `uv_pipe_getpeername`):
given the capacity passed in via the size pointer, returns the status
code, the bytes written into the caller's buffer, and the size written
back through the size pointer. -/
def NameQuery : Type := Nat → Int × List Char × Nat

/-- `Pipe.sockname` (src/uv/handles/pipe.py lines 125-146): raises
`ClosedHandleError` when closing; queries the backend with a 255-byte
buffer; on `ENOBUFS` re-queries once with a fresh buffer of the
backend-reported size; raises `UVError` on any remaining non-success
code; otherwise decodes the reported number of bytes. -/
def Pipe.sockname (getsockname : NameQuery) (closing : Bool) :
    Except Fault (List Char) :=
  if closing then .error .closedHandle
  else
    let r := getsockname 255
    let r := if r.1 = StatusCodes.ENOBUFS then getsockname r.2.2 else r
    if r.1 ≠ StatusCodes.SUCCESS then .error (.uvError r.1)
    else .ok (r.2.1.take r.2.2)

/-- `Pipe.peername` (src/uv/handles/pipe.py lines 148-169): identical to
`sockname` but against `uv_pipe_getpeername`. -/
def Pipe.peername (getpeername : NameQuery) (closing : Bool) :
    Except Fault (List Char) :=
  if closing then .error .closedHandle
  else
    let r := getpeername 255
    let r := if r.1 = StatusCodes.ENOBUFS then getpeername r.2.2 else r
    if r.1 ≠ StatusCodes.SUCCESS then .error (.uvError r.1)
    else .ok (r.2.1.take r.2.2)

/-- The behaviour of a well-formed backend name query whose stored name
is `name`: success (with the name and its length) when the capacity
suffices, `ENOBUFS` with the needed size written back otherwise. -/
def nameQueryFor (name : List Char) : NameQuery := fun cap =>
  if name.length ≤ cap then (StatusCodes.SUCCESS, name, name.length)
  else (StatusCodes.ENOBUFS, [], name.length)

/-- `Pipe.pending_count` (src/uv/handles/pipe.py lines 74-84): returns 0
when the pipe is closing, otherwise the backend's
`uv_pipe_pending_count`. Never raises. -/
def Pipe.pending_count (backendCount : Nat) (closing : Bool) :
    Except Fault Nat :=
  if closing then .ok 0 else .ok backendCount

/-- `Pipe.pending_type` (src/uv/handles/pipe.py lines 86-98): raises
`ClosedHandleError` when the pipe is closing, otherwise resolves the
backend's `uv_pipe_pending_type` tag (the class-lookup through
`handle.HandleTypes` is kept as the tag itself). -/
def Pipe.pending_type (backendTypeTag : Nat) (closing : Bool) :
    Except Fault Nat :=
  if closing then .error .closedHandle else .ok backendTypeTag

/-- Python-visible state of a `TCP` handle used by `connect`
(src/uv/handles/tcp.py): the closing flag, the registered-request set
`self.requests` (as request identifiers, most recent first), the stored
`sockaddr`, and a counter producing the next fresh request identity. -/
structure TCPState where
  closing : Bool
  requests : List Nat
  sockaddr : Option (String × Nat)
  nextRequestId : Nat
deriving DecidableEq, Repr

/-- `TCP.connect` (src/uv/handles/tcp.py lines 71-78): constructs a
`ConnectRequest`, stores the encoded sockaddr, adds the request to
`self.requests`, then calls `uv_tcp_connect` (whose status the backend
reports as `connectCode`); raises `UVError` when the status is negative,
otherwise returns the request. The source performs no closing-state
check, and the registration into `self.requests` precedes the backend
call, so it persists when the call raises. The undefined helper
`c_require(request.uv_connect, self.sockaddr)` is modelled as
effect-free (it pins C data and changes no Python-visible state). -/
def TCP.connect (connectCode : Int) (ip : String) (port : Nat)
    (s : TCPState) : Except Fault Nat × TCPState :=
  let request := s.nextRequestId
  let s := { s with
    sockaddr := some (ip, port)
    nextRequestId := s.nextRequestId + 1 }
  let s := { s with requests := request :: s.requests }
  if connectCode < 0 then (.error (.uvError connectCode), s)
  else (.ok request, s)

/-- Demo allocator whose single buffer is currently in use. -/
def allocBusyDemo : DefaultAllocator := ⟨4, true, [1, 2, 3, 4]⟩

/-- Demo allocator whose single buffer is free. -/
def allocFreeDemo : DefaultAllocator := ⟨4, false, [1, 2, 3, 4]⟩

/-- Claim C4: when the default allocator's single buffer is in use,
`allocate` supplies a zero-length NULL-base buffer (it neither blocks
nor raises: the model's `allocate` is a total function); when the buffer
is free, it supplies the full fixed-size buffer. -/
theorem default_allocator_allocate_spec (a : DefaultAllocator) (uv_buf : UVBuf) :
    (a.buffer_in_use = true → (a.allocate uv_buf).2 = ⟨none, 0⟩) ∧
    (a.buffer_in_use = false →
      (a.allocate uv_buf).2 = ⟨some a.c_buffer, a.buffer_size⟩) := by
  constructor <;> intro h <;>
    simp [DefaultAllocator.allocate, uv_buffer_set, h]

/-- Witness for C4 at concrete allocator states. -/
theorem default_allocator_allocate_spec_witness :
    (allocBusyDemo.allocate ⟨none, 0⟩).2 = ⟨none, 0⟩ ∧
    (allocFreeDemo.allocate ⟨none, 0⟩).2 = ⟨some [1, 2, 3, 4], 4⟩ :=
  ⟨(default_allocator_allocate_spec allocBusyDemo ⟨none, 0⟩).1 rfl,
   (default_allocator_allocate_spec allocFreeDemo ⟨none, 0⟩).2 rfl⟩

/-- Claim C5: `finalize` with reported length `n` clears the in-use flag
and returns exactly `n` bytes copied from the buffer when `n > 0`, and
the empty byte string when `n` is zero or negative. The hypothesis says
the backend honoured its contract of writing at most the buffer's
capacity. -/
theorem default_allocator_finalize_spec (a : DefaultAllocator) (length : Int)
    (uv_buf : UVBuf) (h : length.toNat ≤ (uv_buf.base.getD []).length) :
    (a.finalize length uv_buf).1.buffer_in_use = false ∧
    (0 < length →
      (a.finalize length uv_buf).2.length = length.toNat ∧
      (a.finalize length uv_buf).2 = (uv_buf.base.getD []).take length.toNat) ∧
    (length ≤ 0 → (a.finalize length uv_buf).2 = []) := by
  refine ⟨rfl, ?_, ?_⟩
  · intro hpos
    simp [DefaultAllocator.finalize, ffiBuffer, hpos, List.length_take,
      Nat.min_eq_left h]
  · intro hneg
    simp [DefaultAllocator.finalize, not_lt.mpr hneg]

/-- Witness for C5: length 2 out of a 3-byte buffer. -/
theorem default_allocator_finalize_spec_witness :
    (allocBusyDemo.finalize 2 ⟨some [5, 6, 7], 3⟩).1.buffer_in_use = false ∧
    (allocBusyDemo.finalize 2 ⟨some [5, 6, 7], 3⟩).2 = [5, 6] := by
  have h := default_allocator_finalize_spec allocBusyDemo 2 ⟨some [5, 6, 7], 3⟩
    (by decide)
  exact ⟨h.1, (h.2.1 (by decide)).2⟩

/-- Claim C2: if the excepthook raises while `handle_exception` handles
a contained callback fault, the call terminates the process with
`sys.exit(1)` — for every state and whether or not the diagnostic
printing itself faults, the outcome is `exit 1`, never a normal return;
and when printing succeeds the diagnostics are emitted. -/
theorem handle_exception_hook_fault_fatal (printRaises : Bool) (exc : Nat)
    (s : LoopState) :
    (Loop.handle_exception true printRaises exc s).outcome = .exit 1 ∧
    (Loop.handle_exception true false exc s).diagnostics = true :=
  ⟨rfl, rfl⟩

/-- Claim C10: on a closing (or closed) pipe, `pending_count` returns 0
without raising while `pending_type` raises `ClosedHandleError`. -/
theorem pipe_pending_accessor_asymmetry (backendCount backendTypeTag : Nat)
    (closing : Bool) (h : closing = true) :
    Pipe.pending_count backendCount closing = .ok 0 ∧
    Pipe.pending_type backendTypeTag closing = .error .closedHandle := by
  subst h
  exact ⟨rfl, rfl⟩

/-- Witness for C10 at concrete backend values. -/
theorem pipe_pending_accessor_asymmetry_witness :
    Pipe.pending_count 7 true = .ok 0 ∧
    Pipe.pending_type 2 true = .error .closedHandle :=
  pipe_pending_accessor_asymmetry 7 2 true rfl

/-- Demo backend: loop alive, time 42, fd 5, timeout 100, run reports no
work left, close succeeds. -/
def backendDemo : Backend := ⟨true, 42, 5, 100, false, 0⟩

/-- Demo loop state after a successful close. -/
def closedLoopDemo : LoopState := ⟨true, false, false, false, false, none⟩

/-- Demo loop state of a freshly constructed, open loop. -/
def openLoopDemo : LoopState := ⟨false, true, true, true, false, none⟩

/-- Counterexample to claim C6 as stated: on a closed loop, `alive`
returns `False` and `stop` returns silently — neither fails with a
closed-loop fault. -/
theorem loop_closed_alive_stop_do_not_fault :
    Loop.alive backendDemo closedLoopDemo = .ok false ∧
    Loop.stop closedLoopDemo = .ok closedLoopDemo :=
  ⟨rfl, rfl⟩

/-- Claim C6 (amended): on a closed loop, `now`, `fileno`,
`update_time`, `get_timeout` and `run` fail with a closed-loop fault,
while `alive` returns `False` and `stop` is a silent no-op, neither
raising. -/
theorem loop_closed_operations (b : Backend) (s : LoopState)
    (h : s.closed = true) :
    Loop.now b s = .error .closedLoop ∧
    Loop.fileno b s = .error .closedLoop ∧
    Loop.update_time s = .error .closedLoop ∧
    Loop.get_timeout b s = .error .closedLoop ∧
    Loop.run b s = .error .closedLoop ∧
    Loop.alive b s = .ok false ∧
    Loop.stop s = .ok s := by
  simp [Loop.now, Loop.fileno, Loop.update_time, Loop.get_timeout, Loop.run,
    Loop.alive, Loop.stop, h]

/-- Witness for the amended C6 at a concrete closed loop. -/
theorem loop_closed_operations_witness :
    Loop.now backendDemo closedLoopDemo = .error .closedLoop ∧
    Loop.run backendDemo closedLoopDemo = .error .closedLoop :=
  ⟨(loop_closed_operations backendDemo closedLoopDemo rfl).1,
   (loop_closed_operations backendDemo closedLoopDemo rfl).2.2.2.2.1⟩

/-- The state left by `handle_exception` only records the exception
details; it is independent of whether the excepthook raised. -/
theorem handle_exception_state (hr pr : Bool) (exc : Nat) (s : LoopState) :
    (Loop.handle_exception hr pr exc s).state = { s with excInfo := some exc } := by
  cases hr <;> rfl

/-- Claim C7: once a loop's `closed` flag is true, no operation of the
loop resets it — every operation of src/uv/loop.py preserves
`closed = true`. -/
theorem loop_closed_never_reverts (b : Backend) (op : LoopOp) (s : LoopState)
    (h : s.closed = true) : (Loop.stepState b op s).closed = true := by
  cases op <;>
    simp [Loop.stepState, Loop.make_current, Loop.run, Loop.stop, Loop.close,
      handle_exception_state, h]

/-- Witness for C7: a second `close` on an already closed loop keeps it
closed. -/
theorem loop_closed_never_reverts_witness :
    (Loop.stepState backendDemo .close closedLoopDemo).closed = true :=
  loop_closed_never_reverts backendDemo .close closedLoopDemo rfl

/-- Claim C8: after a `close` that succeeded, a further `close` (under
any backend behaviour) is a no-op: it returns without a fault and leaves
the loop state — including its registry membership — unchanged. -/
theorem loop_close_idempotent (b b' : Backend) (s s' : LoopState)
    (h : Loop.close b s = .ok s') : Loop.close b' s' = .ok s' := by
  have hclosed : s'.closed = true := by
    unfold Loop.close at h
    split at h
    next hc =>
      injection h with h2
      subst h2
      exact hc
    next hc =>
      split at h
      next => injection h
      next =>
        injection h with h2
        subst h2
        rfl
  unfold Loop.close
  simp [hclosed]

/-- Witness for C8: close an open loop, then close it again. -/
theorem loop_close_idempotent_witness :
    Loop.close backendDemo closedLoopDemo = .ok closedLoopDemo :=
  loop_close_idempotent backendDemo backendDemo openLoopDemo closedLoopDemo rfl

/-- Counterexample to claim C3 as stated: a fault raised by the
application-supplied allocator inside the buffer-allocation callback
(modelled as allocation outcome `.error 7`) is silently swallowed — the
excepthook is never invoked, nothing is recorded, and the backend simply
receives a NULL/zero-length buffer. -/
theorem alloc_cb_fault_silently_dropped :
    uv_alloc_cb (.error 7) =
      { buf := ⟨none, 0⟩, hookInvoked := false, propagated := false } :=
  rfl

/-- Claim C3 (amended): faults routed through `handle_exception` are
recorded in the loop's exception fields and always reach the excepthook;
the buffer-allocation callback is the exception to the no-silent-drop
rule: an allocator fault there is contained by handing the backend a
zero-length NULL buffer, without invoking the excepthook (though no
fault ever escapes across the native boundary). -/
theorem fault_routing_amended :
    (∀ (hr pr : Bool) (exc : Nat) (s : LoopState),
      (Loop.handle_exception hr pr exc s).hookInvoked = true ∧
      (Loop.handle_exception hr pr exc s).state.excInfo = some exc) ∧
    (∀ e : Nat, uv_alloc_cb (.error e) =
      { buf := ⟨none, 0⟩, hookInvoked := false, propagated := false }) := by
  constructor
  · intro hr pr exc s
    cases hr <;> exact ⟨rfl, rfl⟩
  · intro e
    rfl

/-- `Pipe.peername` runs the same retry algorithm as `Pipe.sockname`. -/
theorem pipe_peername_eq_sockname (q : NameQuery) (closing : Bool) :
    Pipe.peername q closing = Pipe.sockname q closing :=
  rfl

/-- Against a well-formed backend holding `name`, the sockname retry
algorithm returns the full name for every name length. -/
theorem pipe_sockname_nameQueryFor (name : List Char) :
    Pipe.sockname (nameQueryFor name) false = .ok name := by
  by_cases hle : name.length ≤ 255
  · simp [Pipe.sockname, nameQueryFor, hle, StatusCodes.SUCCESS,
      StatusCodes.ENOBUFS]
  · simp [Pipe.sockname, nameQueryFor, hle, StatusCodes.SUCCESS,
      StatusCodes.ENOBUFS]

/-- Claim C9: a non-closing pipe's `sockname`/`peername` first query the
backend with a 255-byte buffer; they retry, exactly once and only on
`ENOBUFS`, with the backend-reported size; on success they return the
untruncated decoded name, and any other backend status raises a backend
fault. Stated for `sockname` case by case (every case for `peername` is
identical by `pipe_peername_eq_sockname`), plus the end-to-end
untruncated-name result for both accessors against a well-formed
backend. -/
theorem pipe_name_resolution_spec (sq pq : NameQuery) (name : List Char) :
    ((sq 255).1 = StatusCodes.SUCCESS →
      Pipe.sockname sq false = .ok ((sq 255).2.1.take (sq 255).2.2)) ∧
    ((sq 255).1 = StatusCodes.ENOBUFS →
      (sq (sq 255).2.2).1 = StatusCodes.SUCCESS →
      Pipe.sockname sq false =
        .ok ((sq (sq 255).2.2).2.1.take (sq (sq 255).2.2).2.2)) ∧
    ((sq 255).1 = StatusCodes.ENOBUFS →
      (sq (sq 255).2.2).1 ≠ StatusCodes.SUCCESS →
      Pipe.sockname sq false = .error (.uvError (sq (sq 255).2.2).1)) ∧
    ((sq 255).1 ≠ StatusCodes.SUCCESS → (sq 255).1 ≠ StatusCodes.ENOBUFS →
      Pipe.sockname sq false = .error (.uvError (sq 255).1)) ∧
    ((∀ cap, sq cap = nameQueryFor name cap) →
      (∀ cap, pq cap = nameQueryFor name cap) →
      Pipe.sockname sq false = .ok name ∧ Pipe.peername pq false = .ok name) := by
  have hne : StatusCodes.SUCCESS ≠ StatusCodes.ENOBUFS := by decide
  refine ⟨?_, ?_, ?_, ?_, ?_⟩
  · intro h1
    simp [Pipe.sockname, h1, hne]
  · intro h1 h2
    simp [Pipe.sockname, h1, h2]
  · intro h1 h2
    simp [Pipe.sockname, h1, h2]
  · intro h1 h2
    simp [Pipe.sockname, h1, h2]
  · intro hsq hpq
    have hsq' : sq = nameQueryFor name := funext hsq
    have hpq' : pq = nameQueryFor name := funext hpq
    subst hsq'
    subst hpq'
    exact ⟨pipe_sockname_nameQueryFor name,
      (pipe_peername_eq_sockname _ _).trans (pipe_sockname_nameQueryFor name)⟩

/-- Witness for C9: a 300-character name — longer than the 255-byte
probe buffer — is resolved in full by both accessors, and a backend that
reports a non-ENOBUFS error status makes `sockname` raise that fault. -/
theorem pipe_name_resolution_spec_witness :
    Pipe.sockname (nameQueryFor (List.replicate 300 'x')) false =
      .ok (List.replicate 300 'x') ∧
    Pipe.peername (nameQueryFor (List.replicate 300 'x')) false =
      .ok (List.replicate 300 'x') ∧
    Pipe.sockname (fun _ => (-22, [], 0)) false = .error (.uvError (-22)) := by
  have h1 := (pipe_name_resolution_spec (nameQueryFor (List.replicate 300 'x'))
    (nameQueryFor (List.replicate 300 'x')) (List.replicate 300 'x')).2.2.2.2
    (fun _ => rfl) (fun _ => rfl)
  have h2 := (pipe_name_resolution_spec (fun _ => (-22, [], 0))
    (fun _ => (-22, [], 0)) []).2.2.2.1 (by decide) (by decide)
  exact ⟨h1.1, h1.2, h2⟩

/-- Demo TCP handle: open, no registered requests, fresh request ids
starting at 0. -/
def tcpDemo : TCPState := ⟨false, [], none, 0⟩

/-- Claim C1 (evaluation at the failing input): when the backend rejects
`uv_tcp_connect` with status -22, `TCP.connect` raises `UVError(-22)`
but the freshly created request 0 remains registered in the
pending-request set — the registration survives the failed issuance;
and on a closing handle `connect` proceeds to issue (returning the
request) instead of raising a closed-handle fault, because the source
performs no closing-state precondition check. -/
theorem tcp_connect_failed_issuance_registration :
    (TCP.connect (-22) "127.0.0.1" 8080 tcpDemo).1 = .error (.uvError (-22)) ∧
    (TCP.connect (-22) "127.0.0.1" 8080 tcpDemo).2.requests = [0] ∧
    (TCP.connect 0 "127.0.0.1" 8080 { tcpDemo with closing := true }).1 = .ok 0 :=
  ⟨rfl, rfl, rfl⟩

end UV
